import Mathlib

/-!
# Verification of the fs-metadata native volume-metadata engine

Shallow embedding of the C++ sources under `src/` of photostructure/fs-metadata:
capacity arithmetic (`src/common/volume_utils.h`, `src/linux/volume_metadata.cpp`,
`src/linux/fs_meta.cpp`, `src/darwin/volume_metadata.cpp`,
`src/windows/volume_metadata.cpp`), path validation (`src/common/path_security.h`,
`src/windows/security_utils.h`), bulk mount-point probing
(`src/darwin/volume_mount_points.cpp`, `src/windows/drive_status.h`,
`src/windows/volume_mount_points.cpp`) and the BSD hidden-flag toggle
(`src/darwin/hidden.cpp`).

Platform syscalls (statvfs, realpath, GIO, DiskArbitration, Win32) are opaque
metadata providers; each is passed in as an explicit environment value so the
orchestration logic itself is a total, executable Lean function translated
statement-by-statement from the C++.
-/

namespace FSMeta

/-! ## Capacity arithmetic -/

/-- `std::numeric_limits<uint64_t>::max()`. -/
def uint64Max : Nat := 2 ^ 64 - 1

/-- `WouldOverflow` from `src/common/volume_utils.h` lines 28-32:
`return b > 0 && a > std::numeric_limits<uint64_t>::max() / b;`. -/
def WouldOverflow (a b : Nat) : Bool :=
  decide (b > 0) && decide (a > uint64Max / b)

/-- Wrapping uint64 subtraction `a - b` for `a, b < 2^64` (C++ unsigned semantics). -/
def u64sub (a b : Nat) : Nat := (a + 2 ^ 64 - b % 2 ^ 64) % 2 ^ 64

/-- Wrapping uint64 multiplication (C++ unsigned semantics). -/
def u64mul (a b : Nat) : Nat := a * b % 2 ^ 64

/-- The fields of `struct statvfs` the code reads. -/
structure StatVfs where
  frsize : Nat
  bsize : Nat
  blocks : Nat
  bfree : Nat
  bavail : Nat
  deriving Repr, DecidableEq

/-- `vfs.f_frsize ? vfs.f_frsize : vfs.f_bsize` (both Linux and Darwin workers). -/
def blockSizeOf (v : StatVfs) : Nat :=
  if v.frsize ≠ 0 then v.frsize else v.bsize

/-- Computed size/used/available triple (exact integer values; the C++ stores
them in `double`, which is exact below `2^53`). -/
structure Capacity where
  size : Nat
  used : Nat
  available : Nat
  deriving Repr, DecidableEq

/-- Capacity stage of `LinuxMetadataWorker::Execute`
(`src/linux/volume_metadata.cpp` lines 75-95) and of
`GetVolumeMetadataWorker::GetBasicVolumeInfo`
(`src/darwin/volume_metadata.cpp` lines 157-184): overflow guards with their
exact error strings, then
`size = blockSize * totalBlocks`, `available = blockSize * availBlocks`,
`used = blockSize * (totalBlocks - freeBlocks)` in uint64 arithmetic.
No clamp is applied in these workers. -/
def statvfsCapacity (v : StatVfs) : Except String Capacity :=
  let blockSize := blockSizeOf v
  if WouldOverflow blockSize v.blocks then
    Except.error "Total volume size calculation would overflow"
  else if WouldOverflow blockSize v.bavail then
    Except.error "Available space calculation would overflow"
  else if WouldOverflow blockSize v.bfree then
    Except.error "Free space calculation would overflow"
  else
    Except.ok
      { size := blockSize * v.blocks
        used := u64mul blockSize (u64sub v.blocks v.bfree)
        available := blockSize * v.bavail }

/-- Capacity triple with the signed (double) arithmetic of
`GetVolumeMetadataWorker::Execute` in `src/linux/fs_meta.cpp`. -/
structure CapacityI where
  size : Int
  used : Int
  available : Int
  deriving Repr, DecidableEq

/-- Capacity stage of `GetVolumeMetadataWorker::Execute`
(`src/linux/fs_meta.cpp` lines 172-191): all products taken in `double`
(modelled exactly over `Int`), `used = size - blockSize*f_bfree`, followed by
the sanity clamp
`if (used + available > size) used = size - available;` (lines 188-191). -/
def fsMetaCapacity (v : StatVfs) : CapacityI :=
  let blockSize : Int := blockSizeOf v
  let size : Int := blockSize * v.blocks
  let available : Int := blockSize * v.bavail
  let totalFree : Int := blockSize * v.bfree
  let used : Int := size - totalFree
  let used := if used + available > size then size - available else used
  { size := size, used := used, available := available }

/-! ## The volume-metadata record and options -/

/-- `struct VolumeMetadata` from `src/common/volume_metadata.h` lines 40-56
(sizes kept as exact integers; see `Capacity`). -/
structure VolumeMetadata where
  label : String := ""
  fstype : String := ""
  size : Int := 0
  used : Int := 0
  available : Int := 0
  uuid : String := ""
  mountFrom : String := ""
  mountName : String := ""
  uri : String := ""
  status : String := ""
  remote : Bool := false
  remoteHost : String := ""
  remoteShare : String := ""
  isSystemVolume : Bool := false
  error : String := ""
  deriving Repr, DecidableEq

/-- `struct VolumeMetadataOptions` from `src/common/volume_metadata.h` lines 7-13. -/
structure VolumeMetadataOptions where
  mountPoint : String
  timeoutMs : Nat := 5000
  device : String := ""
  skipNetworkVolumes : Bool := false
  deriving Repr, DecidableEq

/-! ## Linux single-volume worker (`src/linux/volume_metadata.cpp`) -/

/-- Environment of syscall/provider outcomes for one `LinuxMetadataWorker`
run.  Each field is the observable result of one opaque native step:
* `statRes` — `open` + `fstatvfs` (lines 50-70): the `statvfs` data on
  success, the thrown `FSException` message on failure;
* `gioEnabled` — whether `ENABLE_GIO` was compiled in;
* `gioRes` — `gio::addMountMetadata(mountPoint, metadata)` (line 105), which
  mutates the record on success or throws with a message;
* `blkidRes` — the `BlkidCache` + `blkid_get_tag_value` block (lines 117-154):
  the nullable UUID and LABEL strings on success, the thrown message on
  failure. -/
structure LinuxEnv where
  statRes : Except String StatVfs
  gioEnabled : Bool
  gioRes : VolumeMetadata → Except String VolumeMetadata
  blkidRes : Except String (Option String × Option String)

/-- `LinuxMetadataWorker` construction plus `Execute`
(`src/linux/volume_metadata.cpp` lines 26-165).  `.error` is a rejected call
(`SetError` / constructor throw); `.ok` is the resolved record.
Faithful points: the empty-mount-point throw from the constructor (line 28);
the three overflow guards with their messages; the GIO failure handler
`metadata.status = "GIO warning: " + e.what()` (line 109) which then falls
through to the blkid block; the blkid failure handler
`metadata.status = "Blkid warning: " + e.what()` (line 158); no clamp of
`used` anywhere. -/
def linuxExecute (opts : VolumeMetadataOptions) (env : LinuxEnv) :
    Except String VolumeMetadata := do
  if opts.mountPoint = "" then
    throw "Mount point cannot be empty"
  let vfs ← env.statRes
  let cap ← statvfsCapacity vfs
  let m0 : VolumeMetadata :=
    { remote := false
      size := (cap.size : Int)
      available := (cap.available : Int)
      used := (cap.used : Int) }
  let m1 :=
    if env.gioEnabled then
      match env.gioRes m0 with
      | Except.ok m' => m'
      | Except.error e => { m0 with status := "GIO warning: " ++ e }
    else m0
  let m2 :=
    if opts.device ≠ "" then
      match env.blkidRes with
      | Except.ok (u, l) =>
          let ma := match u with
            | some s => { m1 with uuid := s }
            | none => m1
          match l with
          | some s => { ma with label := s }
          | none => ma
      | Except.error e => { m1 with status := "Blkid warning: " ++ e }
    else m1
  pure m2

/-! ## POSIX path validation (`src/common/path_security.h`) -/

/-- `CreatePathErrorMessage` from `src/common/error_utils.h`:
`operation + " failed for '" + path + "': " + strerror(error) + " (" + error + ")"`.
`strerror` is an opaque libc table, passed in. -/
def CreatePathErrorMessage (strerror : Nat → String) (operation path : String)
    (error : Nat) : String :=
  operation ++ " failed for '" ++ path ++ "': " ++ strerror error ++ " (" ++
    toString error ++ ")"

/-- `ENOENT` (POSIX). -/
def ENOENT : Nat := 2

/-- `path.find_last_of('/')` on a UTF-8 string, as an optional character index. -/
def findLastSlash (path : String) : Option Nat :=
  (path.toList.reverse.findIdx? (· = '/')).map (fun i => path.length - 1 - i)

/-- Result of `ValidateAndCanonicalizePath`: the returned canonical path
(`.ok`) or the `error` out-parameter together with the empty return (`.error`),
plus the number of `realpath` syscalls the run performed. -/
structure ValidationResult where
  result : Except String String
  realpathCalls : Nat
  deriving Repr

/-- `ValidateAndCanonicalizePath` from `src/common/path_security.h` lines
35-124, with `realpath` as an opaque oracle `rp` (canonical path on success,
`errno` on failure) and `strerror` opaque.  The structure mirrors the source:
empty-path check, null-byte check, `realpath(path)`, and — only when it failed
with `ENOENT` and `allow_nonexistent` — the parent-directory fallback
(`find_last_of('/')`, `realpath(parent)`, re-append leaf). -/
def ValidateAndCanonicalizePath (rp : String → Except Nat String)
    (strerror : Nat → String) (path : String) (allowNonexistent : Bool) :
    ValidationResult :=
  if path = "" then
    { result := Except.error "Empty path provided", realpathCalls := 0 }
  else if path.toList.contains (Char.ofNat 0) then
    { result := Except.error "Invalid path containing null byte", realpathCalls := 0 }
  else
    match rp path with
    | Except.ok canonical => { result := Except.ok canonical, realpathCalls := 1 }
    | Except.error realpathError =>
      if realpathError = ENOENT ∧ allowNonexistent then
        let lastSlash := findLastSlash path
        let parentDir :=
          match lastSlash with
          | none => "."
          | some 0 => "/"
          | some i => (path.toList.take i).asString
        match rp parentDir with
        | Except.error parentError =>
          { result := Except.error
              (CreatePathErrorMessage strerror "realpath (parent)" parentDir parentError)
            realpathCalls := 2 }
        | Except.ok parentCanonical =>
          let filename :=
            match lastSlash with
            | none => path
            | some i => (path.toList.drop (i + 1)).asString
          let res :=
            if parentCanonical = "/" then "/" ++ filename
            else parentCanonical ++ "/" ++ filename
          { result := Except.ok res, realpathCalls := 2 }
      else
        { result := Except.error
            (CreatePathErrorMessage strerror "realpath" path realpathError)
          realpathCalls := 1 }

/-- `ValidatePathForRead` (`src/common/path_security.h` lines 134-137). -/
def ValidatePathForRead (rp : String → Except Nat String)
    (strerror : Nat → String) (path : String) : ValidationResult :=
  ValidateAndCanonicalizePath rp strerror path false

/-! ## Windows path security (`src/windows/security_utils.h`) -/

/-- `PATHCCH_MAX_CCH` (Windows 10+ long-path limit, 32768 wide chars). -/
def PATHCCH_MAX_CCH : Nat := 32768

/-- `needle` occurs at the start of `hay` (helper for `std::string::find`). -/
def startsWith : List Char → List Char → Bool
  | [], _ => true
  | _ :: _, [] => false
  | a :: as, b :: bs => a = b && startsWith as bs

/-- `hay.find(needle)` as an optional index (first occurrence). -/
def findSub (needle : List Char) : List Char → Option Nat
  | [] => if startsWith needle [] then some 0 else none
  | c :: t =>
    if startsWith needle (c :: t) then some 0
    else (findSub needle t).map (· + 1)

/-- `hay.find(needle) != std::string::npos`. -/
def containsSub (needle hay : List Char) : Bool :=
  (findSub needle hay).isSome

/-- The reserved-device-name table of `SecurityUtils::IsPathSecure`
(`src/windows/security_utils.h` lines 53-56). -/
def deviceNames : List (List Char) :=
  ["CON".toList, "PRN".toList, "AUX".toList, "NUL".toList,
   "COM1".toList, "COM2".toList, "COM3".toList, "COM4".toList,
   "COM5".toList, "COM6".toList, "COM7".toList, "COM8".toList, "COM9".toList,
   "LPT1".toList, "LPT2".toList, "LPT3".toList, "LPT4".toList,
   "LPT5".toList, "LPT6".toList, "LPT7".toList, "LPT8".toList, "LPT9".toList]

/-- One iteration of the device-name loop
(`src/windows/security_utils.h` lines 62-80): the device occurs after a slash
and is followed by a separator, a dot, or the end of the path. -/
def deviceBad (upperPath device : List Char) : Bool :=
  if containsSub ('\\' :: device) upperPath ||
     containsSub ('/' :: device) upperPath then
    let pos :=
      match findSub ('\\' :: device) upperPath with
      | some p => some p
      | none => findSub ('/' :: device) upperPath
    match pos with
    | none => false
    | some p =>
      let endPos := p + 1 + device.length
      decide (endPos ≥ upperPath.length) ||
        (match upperPath[endPos]? with
         | some ch => decide (ch = '\\') || decide (ch = '/') || decide (ch = '.')
         | none => false)
  else false

/-- The alternate-data-stream colon check
(`src/windows/security_utils.h` lines 83-94). -/
def colonBad (path : List Char) : Bool :=
  match findSub [':'] path with
  | none => false
  | some colonPos =>
    let isDriveColon : Bool :=
      decide (colonPos = 1) &&
      (match path[0]? with
       | some c => c.isAlpha
       | none => false) &&
      (decide (path.length = 2) ||
       (match path[2]? with
        | some c => decide (c = '\\') || decide (c = '/')
        | none => false))
    if isDriveColon then (findSub [':'] (path.drop (colonPos + 1))).isSome
    else true

/-- `SecurityUtils::IsPathSecure` (`src/windows/security_utils.h` lines
20-105), check for check: empty path, excessive length, null bytes, a leading
`..`, the four `..` substring patterns, reserved device names (on the
upper-cased path), the colon rules, and the `\\?\` / `\\.\` device-namespace
prefixes. -/
def IsPathSecure (path : List Char) : Bool :=
  if path = [] then false
  else if path.length > PATHCCH_MAX_CCH * 3 then false
  else if path.contains (Char.ofNat 0) then false
  else if path.length ≥ 2 ∧ path.take 2 = ['.', '.'] then false
  else if containsSub "..\\".toList path || containsSub "../".toList path ||
          containsSub "\\..".toList path || containsSub "/..".toList path then false
  else
    let upperPath := path.map Char.toUpper
    if deviceNames.any (fun d => deviceBad upperPath d) then false
    else if colonBad path then false
    else if path.length ≥ 4 ∧
            (path.take 4 = ['\\', '\\', '?', '\\'] ∨
             path.take 4 = ['\\', '\\', '.', '\\']) then false
    else true

/-! ## Darwin single-volume worker (`src/darwin/volume_metadata.cpp`) -/

/-- Observable content of the DiskArbitration description dictionary, as the
code reads it (`ProcessDiskDescription` / `ProcessNetworkVolume`, lines
284-338): nullable volume name and UUID, the network flag, and the volume
path (`none` = key missing, `some none` = `CFURLCopyFileSystemPath` failed,
`some (some p)` = the POSIX path). -/
structure DiskDescription where
  volumeName : Option String := none
  uuid : Option String := none
  isNetwork : Option Bool := none
  volumePath : Option (Option String) := none
  deriving Repr, DecidableEq

/-- Environment of syscall/provider outcomes for one Darwin
`GetVolumeMetadataWorker` run:
* `rp`, `strerror` — the `realpath` oracle behind `ValidatePathForRead`;
* `statRes` — `open` + `fstatvfs` + `fstatfs` (lines 121-152), giving the
  statvfs numbers and the `statfs` strings on success;
* `sessionOk` — `DASessionCreate` (line 220);
* `daExc` — an exception thrown inside the DA `try` block (caught at line 275);
* `diskOk` — `DADiskCreateFromBSDName` (line 246);
* `descOk` — `DADiskCopyDescription` (line 258);
* `desc` — the description contents. -/
structure DarwinEnv where
  rp : String → Except Nat String
  strerror : Nat → String
  statRes : Except String (StatVfs × String × String × String)
  sessionOk : Bool
  daExc : Option String := none
  diskOk : Bool
  descOk : Bool
  desc : DiskDescription

/-- `ProcessNetworkVolume` (`src/darwin/volume_metadata.cpp` lines 312-338). -/
def processNetworkVolume (m : VolumeMetadata) (d : DiskDescription) :
    VolumeMetadata :=
  let m1 := match d.isNetwork with
    | some b => { m with remote := b }
    | none => m
  match d.volumePath with
  | none =>
    { m1 with status := "partial",
              error := "Volume path not available in disk description" }
  | some none =>
    { m1 with status := "partial",
              error := "Failed to get filesystem path from volume URL" }
  | some (some p) => { m1 with uri := p }

/-- `ProcessDiskDescription` (`src/darwin/volume_metadata.cpp` lines 284-310);
the null-description branch is covered by `descOk` in `darwinDAInfo`. -/
def processDiskDescription (m : VolumeMetadata) (d : DiskDescription) :
    VolumeMetadata :=
  let m1 := match d.volumeName with
    | some s => { m with label := s }
    | none => m
  let m2 := match d.uuid with
    | some s => { m1 with uuid := s }
    | none => m1
  processNetworkVolume m2 d

/-- `GetDiskArbitrationInfoSafe` (`src/darwin/volume_metadata.cpp` lines
197-282): the unconditional network-filesystem short-circuit, then the DA
session/disk/description chain, each failure downgrading `status` to
`"partial"` with an `error` message rather than failing the call; a thrown
exception inside the `try` sets `status = "error"` (line 277); on full success
`status` becomes `"healthy"` unless description processing already set
`"partial"` (lines 271-273). -/
def darwinDAInfo (m : VolumeMetadata) (env : DarwinEnv) : VolumeMetadata :=
  if m.fstype = "smbfs" ∨ m.fstype = "nfs" ∨ m.fstype = "afpfs" ∨
     m.fstype = "webdav" then
    { m with remote := true, status := "healthy" }
  else if ¬ env.sessionOk then
    { m with status := "partial", error := "Failed to create DA session" }
  else
    match env.daExc with
    | some e => { m with status := "error", error := e }
    | none =>
      if ¬ env.diskOk then
        { m with status := "partial", error := "Failed to create disk reference" }
      else if ¬ env.descOk then
        { m with status := "partial", error := "Failed to get disk description" }
      else
        let m1 := processDiskDescription m env.desc
        if m1.status ≠ "partial" then { m1 with status := "healthy" } else m1

/-- Darwin `GetVolumeMetadataWorker::Execute` (`src/darwin/volume_metadata.cpp`
lines 74-108): `ValidatePathForRead`, then `GetBasicVolumeInfo` (capacity via
the shared overflow-guarded statvfs computation, `status = "ready"`, the
`statfs` strings, lines 113-195), then `GetDiskArbitrationInfoSafe`.
`.error` is a rejected call (`SetError`). -/
def darwinExecute (opts : VolumeMetadataOptions) (env : DarwinEnv) :
    Except String VolumeMetadata := do
  match (ValidatePathForRead env.rp env.strerror opts.mountPoint).result with
  | Except.error e => throw e
  | Except.ok _ =>
    let (vfs, fstypename, mntfromname, mntonname) ← env.statRes
    let cap ← statvfsCapacity vfs
    let m0 : VolumeMetadata :=
      { size := (cap.size : Int)
        available := (cap.available : Int)
        used := (cap.used : Int)
        fstype := fstypename
        mountFrom := mntfromname
        mountName := mntonname
        status := "ready" }
    pure (darwinDAInfo m0 env)

/-! ## Windows drive status (`src/windows/drive_status.h`) -/

/-- `enum class DriveStatus` (`src/windows/drive_status.h` lines 14-20). -/
inductive DriveStatus where
  | Healthy
  | Timeout
  | Inaccessible
  | Disconnected
  | Unknown
  deriving Repr, DecidableEq

/-- `DriveStatusToString` (`src/windows/drive_status.h` lines 22-35). -/
def DriveStatusToString : DriveStatus → String
  | DriveStatus.Healthy => "healthy"
  | DriveStatus.Timeout => "timeout"
  | DriveStatus.Inaccessible => "inaccessible"
  | DriveStatus.Disconnected => "disconnected"
  | DriveStatus.Unknown => "unknown"

/-- One concurrently launched drive probe, as observed by the collector of
`DriveStatusChecker::CheckMultipleDrives`: all futures are launched at time 0
(lines 181-185); `time` is the wall-clock instant the future becomes ready and
`result` is what `future.get()` yields (`none` = the worker stored an
exception, which the collector maps to `Unknown`, lines 211-220). -/
structure WinProbe where
  time : Nat
  result : Option DriveStatus
  deriving Repr, DecidableEq

/-- The result-collection loop of `DriveStatusChecker::CheckMultipleDrives`
(`src/windows/drive_status.h` lines 191-221), with `elapsed` the wall-clock
time already consumed (`startTime` relative).  For each future in input
order: `remainingMs = timeoutMs - elapsedMs` clamped at 0; if the remaining
budget is 0 or `wait_for(remaining)` times out, `Timeout` is recorded (and the
full remaining budget is consumed by the wait); otherwise `future.get()` is
recorded, advancing the clock to the future's completion instant if it was not
yet ready. -/
def collectDriveResults (timeoutMs : Nat) :
    List WinProbe → Nat → List DriveStatus
  | [], _ => []
  | p :: rest, elapsed =>
    let remaining := if elapsed < timeoutMs then timeoutMs - elapsed else 0
    if remaining = 0 then
      DriveStatus.Timeout :: collectDriveResults timeoutMs rest elapsed
    else if p.time ≤ elapsed then
      (match p.result with
       | some s => s
       | none => DriveStatus.Unknown) :: collectDriveResults timeoutMs rest elapsed
    else if p.time ≤ elapsed + remaining then
      (match p.result with
       | some s => s
       | none => DriveStatus.Unknown) :: collectDriveResults timeoutMs rest p.time
    else
      DriveStatus.Timeout :: collectDriveResults timeoutMs rest (elapsed + remaining)

/-- `DriveStatusChecker::CheckMultipleDrives` (`src/windows/drive_status.h`
lines 174-224): launch all probes, then collect with the shared budget. -/
def CheckMultipleDrives (timeoutMs : Nat) (probes : List WinProbe) :
    List DriveStatus :=
  collectDriveResults timeoutMs probes 0

/-! ## Windows single-volume worker (`src/windows/volume_metadata.cpp`) -/

/-- `FormatVolumeSerialNumber` (`src/windows/volume_metadata.cpp` lines
59-65): lower-case hex, zero-padded to (at least) 8 digits. -/
def FormatVolumeSerialNumber (serialNumber : Nat) : String :=
  let ds := Nat.toDigits 16 serialNumber
  ((List.replicate (8 - ds.length) '0') ++ ds).asString

/-- Environment of Win32 call outcomes for one Windows
`GetVolumeMetadataWorker` run:
* `driveStatus` — `CheckDriveStatus(mountPoint)` (line 158);
* `isSystemVolume` — `IsSystemVolume` (line 169);
* `volInfo` — the `VolumeInfo` wrapper around `GetVolumeInformationA`
  (lines 99-113): `.error` = the constructor threw, `.ok none` =
  `ERROR_NOT_READY` (invalid but tolerated), `.ok (some (label, fstype,
  serial))` = success;
* `guidRes` — `GetVolumeGUID` (lines 68-86): the GUID string, or `.error` for
  the thrown `FSException` that triggers the serial-number fallback;
* `diskInfo` — the `DiskSpaceInfo` wrapper around `GetDiskFreeSpaceExA`
  (lines 116-139), `(totalBytes, freeBytes)` on success;
* `driveRemote` — `GetDriveTypeA(...) == DRIVE_REMOTE` (line 211);
* `wnetRes` — `WNetGetConnectionA` via `WNetConnection` (lines 22-56). -/
structure WinEnv where
  driveStatus : DriveStatus
  isSystemVolume : Bool
  volInfo : Except String (Option (String × String × Nat))
  guidRes : Except String String
  diskInfo : Except String (Option (Int × Int))
  driveRemote : Bool
  wnetRes : Option String

/-- Windows `GetVolumeMetadataWorker::Execute` (`src/windows/volume_metadata.cpp`
lines 153-228): drive status first (its string lands in `metadata.status` and
non-healthy drives return immediately with just that, lines 158-166); then
system-volume flag, volume information with the GUID / serial-number UUID
fallback, disk space (`used = size - available`, line 202, no clamp), the
remote flag, and the WNet remote path.  A thrown exception is caught by the
outer handler and rejects the call (`.error`). -/
def windowsExecute (_opts : VolumeMetadataOptions) (env : WinEnv) :
    Except String VolumeMetadata := do
  let m0 : VolumeMetadata := { status := DriveStatusToString env.driveStatus }
  if env.driveStatus ≠ DriveStatus.Healthy then
    pure m0
  else
    let m1 := { m0 with isSystemVolume := env.isSystemVolume }
    let vi ← env.volInfo
    let m2 ← match vi with
      | none => pure m1
      | some (volLabel, volFsType, serial) =>
        let ma := { m1 with label := volLabel, fstype := volFsType }
        let mb := match env.guidRes with
          | Except.ok g => { ma with uuid := g }
          | Except.error _ => { ma with uuid := FormatVolumeSerialNumber serial }
        do
          let di ← env.diskInfo
          match di with
          | none => pure mb
          | some (totalBytes, freeBytes) =>
            pure { mb with size := totalBytes, available := freeBytes,
                           used := totalBytes - freeBytes }
    let m3 := { m2 with remote := env.driveRemote }
    let m4 :=
      if env.driveRemote then
        match env.wnetRes with
        | some r => { m3 with mountFrom := r }
        | none => m3
      else m3
    pure m4

/-! ## Bulk mount-point enumeration -/

/-- `struct MountPoint` from `src/common/volume_mount_points.h` lines 21-26. -/
structure MountPoint where
  mountPoint : String := ""
  fstype : String := ""
  status : String := ""
  isSystemVolume : Bool := false
  error : String := ""
  deriving Repr, DecidableEq

/-- One Darwin accessibility probe as observed by the batch collector of
`GetVolumeMountPointsWorker::Execute` (`src/darwin/volume_mount_points.cpp`):
`time` is the instant (relative to the batch launch) the `std::async` future
becomes ready; `res` is what `futures[k].get()` yields — the `faccessat`
boolean, or `.error` when the probe threw. -/
structure DarwinProbe where
  time : Nat
  res : Except String Bool

/-- The `future_status::ready` arm (`src/darwin/volume_mount_points.cpp`
lines 103-119): `healthy` / `inaccessible` from the `faccessat` result, or an
`error` entry when `get()` rethrows. -/
def darwinReadyEntry (name fstype : String) (res : Except String Bool) :
    MountPoint :=
  match res with
  | Except.ok accessible =>
    { mountPoint := name, fstype := fstype
      status := if accessible then "healthy" else "inaccessible"
      error := if accessible then "" else "Path is not accessible" }
  | Except.error e =>
    { mountPoint := name, fstype := fstype, status := "error"
      error := "Access check failed: " ++ e }

/-- The per-batch result loop (`src/darwin/volume_mount_points.cpp` lines
88-136).  All the batch's futures are launched before the loop, so completion
times are relative to a common origin; `now` is the wall clock as the loop
waits on each future in input order with its own full `timeoutMs` budget
(`futures[k].wait_for(milliseconds(timeoutMs_))`, line 92).  A timed-out slot
gets `status = "disconnected"`, `error = "Access check timed out"` (lines
95-101) and the loop moves on. -/
def processBatch (timeoutMs : Nat) (probe : String → DarwinProbe) :
    List (String × String) → Nat → List MountPoint
  | [], _ => []
  | (name, fstype) :: rest, now =>
    let o := probe name
    if o.time ≤ now then
      darwinReadyEntry name fstype o.res :: processBatch timeoutMs probe rest now
    else if o.time ≤ now + timeoutMs then
      darwinReadyEntry name fstype o.res :: processBatch timeoutMs probe rest o.time
    else
      { mountPoint := name, fstype := fstype, status := "disconnected",
        error := "Access check timed out" }
        :: processBatch timeoutMs probe rest (now + timeoutMs)

/-- The `maxConcurrentChecks = 4` batching of
`src/darwin/volume_mount_points.cpp` lines 52-62. -/
def chunk4 {α : Type} : List α → List (List α)
  | [] => []
  | [a] => [[a]]
  | [a, b] => [[a, b]]
  | [a, b, c] => [[a, b, c]]
  | a :: b :: c :: d :: rest => [a, b, c, d] :: chunk4 rest

/-- Darwin `GetVolumeMountPointsWorker::Execute` after the mount-table read
(`src/darwin/volume_mount_points.cpp` lines 51-137): candidates (mount path,
filesystem type) are processed in mount-table order in batches of four, each
batch's futures launched together and collected in order. -/
def darwinProbeAll (timeoutMs : Nat) (probe : String → DarwinProbe)
    (candidates : List (String × String)) : List MountPoint :=
  ((chunk4 candidates).map (fun batch => processBatch timeoutMs probe batch 0)).flatten

/-- `DRIVE_NO_ROOT_DIR` (winbase.h). -/
def DRIVE_NO_ROOT_DIR : Nat := 1

/-- One logical drive as enumerated by the Windows
`GetVolumeMountPointsWorker` (`src/windows/volume_mount_points.cpp`):
its path, `GetDriveTypeW` result, probe behaviour, the
`GetVolumeInformationW` filesystem name (when it succeeds) and the
`IsSystemVolume` flag. -/
structure WinDrive where
  path : String
  driveType : Nat
  probe : WinProbe
  fsName : Option String
  isSystem : Bool

/-- Windows `GetVolumeMountPointsWorker::Execute`
(`src/windows/volume_mount_points.cpp` lines 36-105): drives with
`DRIVE_NO_ROOT_DIR` are skipped during enumeration (lines 63-67), statuses are
collected by `CheckDriveStatus` = `CheckMultipleDrives` (line 76), and one
`MountPoint` per kept drive is built in order (lines 81-102), with `fstype`
filled only for `Healthy` drives whose `GetVolumeInformationW` succeeded. -/
def winMountPoints (timeoutMs : Nat) (drives : List WinDrive) :
    List MountPoint :=
  let valid := drives.filter (fun d => d.driveType ≠ DRIVE_NO_ROOT_DIR)
  let statuses := CheckMultipleDrives timeoutMs (valid.map (fun d => d.probe))
  (valid.zip statuses).map (fun ds =>
    { mountPoint := ds.1.path
      status := DriveStatusToString ds.2
      fstype :=
        if ds.2 = DriveStatus.Healthy then
          match ds.1.fsName with
          | some f => f
          | none => ""
        else ""
      isSystemVolume := ds.1.isSystem
      error := "" })

/-! ## Darwin hidden attribute (`src/darwin/hidden.cpp`) -/

/-- `UF_HIDDEN` (sys/stat.h): bit 15. -/
def UF_HIDDEN : Nat := 0x8000

/-- All 32 bits set; `st_flags` is a `u_int32_t`. -/
def uint32Mask : Nat := 2 ^ 32 - 1

/-- The flag computation of `SetHiddenWorker::Execute`
(`src/darwin/hidden.cpp` lines 171-176):
`new_flags = st_flags | UF_HIDDEN` when hiding,
`new_flags = st_flags & ~UF_HIDDEN` when unhiding
(`~UF_HIDDEN` over `u_int32_t` is the 32-bit mask with bit 15 cleared, i.e.
`uint32Mask ^^^ UF_HIDDEN`). -/
def setHiddenFlags (hidden : Bool) (stFlags : Nat) : Nat :=
  if hidden then stFlags ||| UF_HIDDEN
  else stFlags &&& (uint32Mask ^^^ UF_HIDDEN)

end FSMeta

namespace FSMeta

/-! ## Shared helper lemmas -/

theorem wouldOverflow_iff (a b : Nat) :
    WouldOverflow a b = true ↔ uint64Max < a * b := by
  unfold WouldOverflow
  rcases Nat.eq_zero_or_pos b with hb | hb
  · subst hb
    simp [uint64Max]
  · simp only [Bool.and_eq_true, decide_eq_true_eq]
    constructor
    · rintro ⟨-, h⟩
      by_contra hle
      push_neg at hle
      exact absurd ((Nat.le_div_iff_mul_le hb).mpr hle) (by omega)
    · intro h
      refine ⟨hb, ?_⟩
      by_contra hle
      push_neg at hle
      exact absurd ((Nat.le_div_iff_mul_le hb).mp hle) (by omega)

theorem two_pow_64_eq : (2 : Nat) ^ 64 = 18446744073709551616 := by norm_num

/-- Unpacks a successful `statvfsCapacity` run: all three guards are down and
the capacity triple is the literal computation. -/
theorem statvfsCapacity_ok {v : StatVfs} {cap : Capacity}
    (h : statvfsCapacity v = Except.ok cap) :
    WouldOverflow (blockSizeOf v) v.blocks = false ∧
    WouldOverflow (blockSizeOf v) v.bavail = false ∧
    WouldOverflow (blockSizeOf v) v.bfree = false ∧
    cap = { size := blockSizeOf v * v.blocks
            used := u64mul (blockSizeOf v) (u64sub v.blocks v.bfree)
            available := blockSizeOf v * v.bavail } := by
  unfold statvfsCapacity at h
  dsimp only at h
  split at h
  · simp at h
  · split at h
    · simp at h
    · split at h
      · simp at h
      · rename_i h1 h2 h3
        refine ⟨by simpa using h1, by simpa using h2, by simpa using h3, ?_⟩
        cases h
        rfl

/-! ## C1: the used + available ≤ size invariant -/

/-- Concrete statvfs data refuting the claimed invariant in
`LinuxMetadataWorker`: `f_bavail > f_bfree` (block size 1, 10 blocks, 2 free,
5 available, as a filesystem with reserved-block accounting quirks can
report). -/
def c1Vfs : StatVfs := { frsize := 0, bsize := 1, blocks := 10, bfree := 2, bavail := 5 }

def c1Opts : VolumeMetadataOptions := { mountPoint := "/mnt/data" }

def c1Env : LinuxEnv :=
  { statRes := Except.ok c1Vfs
    gioEnabled := false
    gioRes := fun m => Except.ok m
    blkidRes := Except.ok (none, none) }

/-- The record `LinuxMetadataWorker` resolves for `c1Vfs`. -/
def c1Record : VolumeMetadata := { remote := false, size := 10, used := 8, available := 5 }

/-- C1 counterexample: `LinuxMetadataWorker::Execute`
(`src/linux/volume_metadata.cpp` lines 91-95) applies no clamp, so with
`f_bavail = 5 > f_bfree = 2` the successfully returned record has
`used + available = 13 > 10 = size`. -/
theorem c1_no_clamp_counterexample :
    linuxExecute c1Opts c1Env = Except.ok c1Record ∧
    ¬ (c1Record.used + c1Record.available ≤ c1Record.size) := by
  constructor
  · rfl
  · decide

/-- C1 (amended): the clamp exists only in `GetVolumeMetadataWorker::Execute`
(`src/linux/fs_meta.cpp` lines 188-191), where the invariant
`used + available ≤ size` holds unconditionally; in the overflow-guarded
workers (`src/linux/volume_metadata.cpp`, `src/darwin/volume_metadata.cpp`)
no clamp is applied and the invariant holds exactly when the platform reports
`f_bavail ≤ f_bfree ≤ f_blocks`. -/
theorem c1_invariant_amended :
    (∀ v : StatVfs,
      (fsMetaCapacity v).used + (fsMetaCapacity v).available ≤ (fsMetaCapacity v).size) ∧
    (∀ (v : StatVfs) (cap : Capacity), v.bavail ≤ v.bfree → v.bfree ≤ v.blocks →
      statvfsCapacity v = Except.ok cap → cap.used + cap.available ≤ cap.size) := by
  constructor
  · intro v
    unfold fsMetaCapacity
    dsimp only
    split <;> omega
  · intro v cap h1 h2 hok
    obtain ⟨hg1, -, -, hcap⟩ := statvfsCapacity_ok hok
    subst hcap
    dsimp only
    set B := blockSizeOf v with hB
    have hsize : B * v.blocks ≤ uint64Max := by
      have := (wouldOverflow_iff B v.blocks).mpr
      by_contra hlt
      push_neg at hlt
      exact absurd (this hlt) (by simp [hg1])
    rcases Nat.eq_zero_or_pos B with hB0 | hB0
    · simp [u64mul, u64sub, hB0]
    · have hblocks : v.blocks < 2 ^ 64 := by
        have h1le : 1 * v.blocks ≤ B * v.blocks := Nat.mul_le_mul_right _ hB0
        have : v.blocks ≤ uint64Max := by omega
        unfold uint64Max at this
        omega
      have hbfree : v.bfree < 2 ^ 64 := by omega
      have hsub : u64sub v.blocks v.bfree = v.blocks - v.bfree := by
        unfold u64sub
        rw [two_pow_64_eq] at hbfree hblocks ⊢
        omega
      have hmul_le : B * (v.blocks - v.bfree) ≤ B * v.blocks :=
        Nat.mul_le_mul_left _ (Nat.sub_le _ _)
      have hmul : u64mul B (v.blocks - v.bfree) = B * (v.blocks - v.bfree) := by
        unfold u64mul
        apply Nat.mod_eq_of_lt
        unfold uint64Max at hsize
        omega
      rw [hsub, hmul]
      calc B * (v.blocks - v.bfree) + B * v.bavail
          ≤ B * (v.blocks - v.bfree) + B * v.bfree :=
            Nat.add_le_add_left (Nat.mul_le_mul_left _ h1) _
        _ = B * (v.blocks - v.bfree + v.bfree) := by rw [Nat.mul_add]
        _ = B * v.blocks := by rw [Nat.sub_add_cancel h2]

/-- Witness for `c1_invariant_amended` at concrete inputs: the clamped
fs_meta computation on `c1Vfs` itself, and the Linux worker on well-behaved
data (1-byte blocks, 10 total, 5 free, 2 available). -/
theorem c1_invariant_amended_witness :
    ((fsMetaCapacity c1Vfs).used + (fsMetaCapacity c1Vfs).available ≤
      (fsMetaCapacity c1Vfs).size) ∧
    ((5 : Nat) + 2 ≤ 10) := by
  refine ⟨c1_invariant_amended.1 c1Vfs, ?_⟩
  have h := c1_invariant_amended.2 { frsize := 0, bsize := 1, blocks := 10, bfree := 5, bavail := 2 }
      { size := 10, used := 5, available := 2 } (by decide) (by decide) (by rfl)
  exact h

/-! ## C2: overflow detection before multiplication -/

def c2Opts : VolumeMetadataOptions := { mountPoint := "/mnt/huge" }

def c2Env : LinuxEnv :=
  { statRes := Except.ok { frsize := 2 ^ 32, bsize := 2 ^ 32, blocks := 2 ^ 32, bfree := 0, bavail := 0 }
    gioEnabled := false
    gioRes := fun m => Except.ok m
    blkidRes := Except.ok (none, none) }

/-- C2: the guard `b > 0 && a > MAX / b` of `WouldOverflow`
(`src/common/volume_utils.h` lines 28-32) holds exactly when `a * b` exceeds
the uint64 maximum, and a `(blockSize, totalBlocks)` pair whose product
overflows makes `LinuxMetadataWorker::Execute` fail with the named overflow
error (`src/linux/volume_metadata.cpp` lines 81-83) instead of resolving with
a wrapped value. -/
theorem c2_overflow_guard (opts : VolumeMetadataOptions) (env : LinuxEnv)
    (bs tb fb ab : Nat)
    (hmp : ¬ opts.mountPoint = "")
    (hstat : env.statRes = Except.ok { frsize := bs, bsize := bs, blocks := tb, bfree := fb, bavail := ab })
    (hover : uint64Max < bs * tb) :
    (∀ a b : Nat, WouldOverflow a b = true ↔ uint64Max < a * b) ∧
    WouldOverflow bs tb = true ∧
    linuxExecute opts env = Except.error "Total volume size calculation would overflow" := by
  have hbs : blockSizeOf { frsize := bs, bsize := bs, blocks := tb, bfree := fb, bavail := ab } = bs := by
    unfold blockSizeOf
    split <;> rfl
  have hw : WouldOverflow bs tb = true := (wouldOverflow_iff bs tb).mpr hover
  refine ⟨wouldOverflow_iff, hw, ?_⟩
  unfold linuxExecute
  rw [if_neg hmp, hstat]
  show (statvfsCapacity _ >>= _) = _
  unfold statvfsCapacity
  rw [hbs, if_pos hw]
  rfl

/-- Witness for `c2_overflow_guard`: `blockSize = totalBlocks = 2^32`, whose
product `2^64` exceeds the uint64 maximum. -/
theorem c2_overflow_guard_witness :
    (∀ a b : Nat, WouldOverflow a b = true ↔ uint64Max < a * b) ∧
    WouldOverflow (2 ^ 32) (2 ^ 32) = true ∧
    linuxExecute c2Opts c2Env = Except.error "Total volume size calculation would overflow" :=
  c2_overflow_guard c2Opts c2Env (2 ^ 32) (2 ^ 32) 0 0 (by decide) rfl (by decide)

/-! ## C3: secondary-source failure handling -/

def c3Opts : VolumeMetadataOptions :=
  { mountPoint := "/mnt/data", device := "/dev/sda1" }

def c3Env : LinuxEnv :=
  { statRes := Except.ok { frsize := 0, bsize := 1, blocks := 10, bfree := 5, bavail := 2 }
    gioEnabled := true
    gioRes := fun _ => Except.error "boom"
    blkidRes := Except.ok (some "0b0t", some "Data") }

/-- The record `LinuxMetadataWorker` resolves when GIO enrichment throws
`boom` and blkid then succeeds. -/
def c3Record : VolumeMetadata :=
  { remote := false, size := 10, used := 5, available := 2,
    status := "GIO warning: boom", uuid := "0b0t", label := "Data" }

/-- C3 counterexample: on Linux a failed secondary source does not produce
`status = "partial"` with a non-empty `errorDetail` — the call succeeds with
`status = "GIO warning: boom"` and an empty `error` field
(`src/linux/volume_metadata.cpp` line 109 writes the warning into `status`
and never touches `error`). -/
theorem c3_partial_status_counterexample :
    linuxExecute c3Opts c3Env = Except.ok c3Record ∧
    ¬ c3Record.status = "partial" ∧ c3Record.error = "" := by
  exact ⟨rfl, by decide, rfl⟩

/-- Helper: `GetDiskArbitrationInfoSafe` on a non-network filesystem whose
`DASessionCreate` fails downgrades to `partial` with a message. -/
theorem darwinDAInfo_session_fail (m : VolumeMetadata) (env : DarwinEnv)
    (h1 : ¬ m.fstype = "smbfs") (h2 : ¬ m.fstype = "nfs")
    (h3 : ¬ m.fstype = "afpfs") (h4 : ¬ m.fstype = "webdav")
    (hsess : env.sessionOk = false) :
    darwinDAInfo m env =
      { m with status := "partial", error := "Failed to create DA session" } := by
  unfold darwinDAInfo
  rw [if_neg (by simp [h1, h2, h3, h4]), if_pos (by simp [hsess])]

/-- C3 (amended): a secondary-source failure never aborts the call and the
remaining sources are still attempted with capacity fields intact, but the
degrade marker is platform-specific: Linux overwrites `status` with a
`"GIO warning: ..."` string and leaves `errorDetail` empty
(`src/linux/volume_metadata.cpp` lines 106-110), while Darwin sets
`status = "partial"` with a non-empty `errorDetail`
(`src/darwin/volume_metadata.cpp` lines 221-226). -/
theorem c3_enrichment_amended :
    (∀ (opts : VolumeMetadataOptions) (env : LinuxEnv) (vfs : StatVfs)
        (cap : Capacity) (e u l : String),
      ¬ opts.mountPoint = "" →
      env.statRes = Except.ok vfs →
      statvfsCapacity vfs = Except.ok cap →
      env.gioEnabled = true →
      (∀ m, env.gioRes m = Except.error e) →
      ¬ opts.device = "" →
      env.blkidRes = Except.ok (some u, some l) →
      linuxExecute opts env = Except.ok
        { remote := false, size := (cap.size : Int), used := (cap.used : Int),
          available := (cap.available : Int),
          status := "GIO warning: " ++ e, uuid := u, label := l }) ∧
    (∀ (opts : VolumeMetadataOptions) (env : DarwinEnv) (canonical : String)
        (vfs : StatVfs) (cap : Capacity) (fstypename mntfrom mnton : String),
      (ValidatePathForRead env.rp env.strerror opts.mountPoint).result =
        Except.ok canonical →
      env.statRes = Except.ok (vfs, fstypename, mntfrom, mnton) →
      statvfsCapacity vfs = Except.ok cap →
      ¬ fstypename = "smbfs" → ¬ fstypename = "nfs" →
      ¬ fstypename = "afpfs" → ¬ fstypename = "webdav" →
      env.sessionOk = false →
      darwinExecute opts env = Except.ok
        { size := (cap.size : Int), used := (cap.used : Int),
          available := (cap.available : Int), fstype := fstypename,
          mountFrom := mntfrom, mountName := mnton,
          status := "partial", error := "Failed to create DA session" }) := by
  constructor
  · intro opts env vfs cap e u l hmp hstat hcap hgio hgioRes hdev hblk
    unfold linuxExecute
    rw [if_neg hmp, hstat]
    show (statvfsCapacity vfs >>= _) = _
    rw [hcap]
    show Except.ok _ = _
    simp only [hgio, if_true, hgioRes, hblk, if_pos hdev]
  · intro opts env canonical vfs cap fstypename mntfrom mnton hv hstat hcap h1 h2 h3 h4 hsess
    unfold darwinExecute
    rw [hv]
    show (env.statRes >>= _) = _
    rw [hstat]
    show (statvfsCapacity vfs >>= _) = _
    rw [hcap]
    show Except.ok (darwinDAInfo _ env) = _
    rw [darwinDAInfo_session_fail _ env h1 h2 h3 h4 hsess]

def c3DarwinEnv : DarwinEnv :=
  { rp := fun _ => Except.ok "/mnt/data"
    strerror := fun _ => "No such file or directory"
    statRes := Except.ok ({ frsize := 0, bsize := 1, blocks := 10, bfree := 5, bavail := 2 },
                          "apfs", "/dev/disk1s1", "/mnt/data")
    sessionOk := false
    diskOk := false
    descOk := false
    desc := {} }

/-- Witness for `c3_enrichment_amended`: the concrete Linux run of
`c3_partial_status_counterexample`'s environment, and a Darwin run whose DA
session creation fails. -/
theorem c3_enrichment_amended_witness :
    linuxExecute c3Opts c3Env = Except.ok
      { remote := false, size := 10, used := 5, available := 2,
        status := "GIO warning: " ++ "boom", uuid := "0b0t", label := "Data" } ∧
    darwinExecute { mountPoint := "/mnt/data" } c3DarwinEnv = Except.ok
      { size := 10, used := 5, available := 2, fstype := "apfs",
        mountFrom := "/dev/disk1s1", mountName := "/mnt/data",
        status := "partial", error := "Failed to create DA session" } := by
  constructor
  · exact c3_enrichment_amended.1 c3Opts c3Env _ { size := 10, used := 5, available := 2 }
      "boom" "0b0t" "Data" (by decide) rfl (by rfl) rfl (fun _ => rfl) (by decide) rfl
  · exact c3_enrichment_amended.2 { mountPoint := "/mnt/data" } c3DarwinEnv "/mnt/data" _
      { size := 10, used := 5, available := 2 } "apfs" "/dev/disk1s1" "/mnt/data"
      (by rfl) rfl (by rfl) (by decide) (by decide) (by decide) (by decide) rfl

/-! ## C4: per-probe timeout handling -/

/-- Two concurrently launched Windows drive probes: the first is stuck until
t = 1000, the second completed healthily at t = 10. -/
def c4Probes : List WinProbe :=
  [{ time := 1000, result := some DriveStatus.Healthy },
   { time := 10, result := some DriveStatus.Healthy }]

/-- C4 counterexample, on the Windows bulk checker
(`src/windows/drive_status.h` lines 191-224): with a 100 ms budget, the stuck
first probe consumes the whole shared budget, the second probe — although
already completed with `Healthy` at t = 10 — is also reported `Timeout`, and
the timeout status string is `"timeout"`, not `"disconnected"`. -/
theorem c4_windows_timeout_counterexample :
    CheckMultipleDrives 100 c4Probes =
      [DriveStatus.Timeout, DriveStatus.Timeout] ∧
    DriveStatusToString DriveStatus.Timeout = "timeout" ∧
    ¬ DriveStatusToString DriveStatus.Timeout = "disconnected" := by
  decide

/-- C4 (amended): on Darwin each probe is awaited with its own full timeout —
a probe not completing within the window is marked `disconnected` (not an
error status) and kept, and a probe that already completed still reports its
true (`healthy`/`inaccessible`) status even after an earlier slot timed out;
on Windows the timeout status is `Timeout` (string `"timeout"`), the wait
budget is shared across the batch, and once it is exhausted every remaining
entry is reported `Timeout` without its completed result being read. -/
theorem c4_timeout_amended :
    (∀ (t : Nat) (probe : String → DarwinProbe) (name fstype : String)
        (rest : List (String × String)) (now : Nat),
      now + t < (probe name).time →
      processBatch t probe ((name, fstype) :: rest) now =
        { mountPoint := name, fstype := fstype, status := "disconnected",
          error := "Access check timed out" } :: processBatch t probe rest (now + t)) ∧
    (∀ (t : Nat) (probe : String → DarwinProbe) (name fstype : String)
        (rest : List (String × String)) (now : Nat) (b : Bool),
      (probe name).time ≤ now →
      (probe name).res = Except.ok b →
      processBatch t probe ((name, fstype) :: rest) now =
        { mountPoint := name, fstype := fstype,
          status := if b then "healthy" else "inaccessible",
          error := if b then "" else "Path is not accessible" }
          :: processBatch t probe rest now) ∧
    (∀ (t : Nat) (ps : List WinProbe) (elapsed : Nat),
      t ≤ elapsed →
      collectDriveResults t ps elapsed = ps.map (fun _ => DriveStatus.Timeout)) ∧
    (∀ (t : Nat) (p : WinProbe) (rest : List WinProbe),
      0 < t → t < p.time →
      CheckMultipleDrives t (p :: rest) =
        DriveStatus.Timeout :: rest.map (fun _ => DriveStatus.Timeout)) := by
  have hexhaust : ∀ (t : Nat) (ps : List WinProbe) (elapsed : Nat),
      t ≤ elapsed →
      collectDriveResults t ps elapsed = ps.map (fun _ => DriveStatus.Timeout) := by
    intro t ps
    induction ps with
    | nil => intro elapsed _; rfl
    | cons p rest ih =>
      intro elapsed h
      unfold collectDriveResults
      rw [if_neg (show ¬ elapsed < t by omega)]
      simp only [List.map]
      rw [if_pos trivial, ih elapsed h]
  refine ⟨?_, ?_, hexhaust, ?_⟩
  · intro t probe name fstype rest now h
    rw [processBatch]
    rw [if_neg (show ¬ (probe name).time ≤ now by omega),
      if_neg (show ¬ (probe name).time ≤ now + t by omega)]
  · intro t probe name fstype rest now b hle hres
    rw [processBatch]
    rw [if_pos hle]
    unfold darwinReadyEntry
    rw [hres]
  · intro t p rest ht hp
    unfold CheckMultipleDrives collectDriveResults
    rw [if_pos ht]
    rw [if_neg (show ¬ (t - 0) = 0 by omega),
      if_neg (show ¬ p.time ≤ 0 by omega),
      if_neg (show ¬ p.time ≤ 0 + (t - 0) by omega),
      hexhaust t rest (0 + (t - 0)) (by omega)]

def c4Probe : String → DarwinProbe :=
  fun name => if name = "/Volumes/stuck" then { time := 1000000, res := Except.ok true }
              else { time := 0, res := Except.ok true }

/-- Witness for `c4_timeout_amended` at concrete inputs: a stuck Darwin probe
(marked `disconnected`, remaining slots processed), an already-completed
Darwin probe (true status), an exhausted-budget Windows collection, and the
`c4Probes` scenario head. -/
theorem c4_timeout_amended_witness :
    (processBatch 100 c4Probe [("/Volumes/stuck", "smbfs"), ("/Volumes/ok", "apfs")] 0 =
      { mountPoint := "/Volumes/stuck", fstype := "smbfs", status := "disconnected",
        error := "Access check timed out" }
        :: processBatch 100 c4Probe [("/Volumes/ok", "apfs")] 100) ∧
    (processBatch 100 c4Probe [("/Volumes/ok", "apfs")] 100 =
      [{ mountPoint := "/Volumes/ok", fstype := "apfs", status := "healthy", error := "" }]) ∧
    (collectDriveResults 100 c4Probes 100 =
      [DriveStatus.Timeout, DriveStatus.Timeout]) ∧
    (CheckMultipleDrives 100 c4Probes =
      DriveStatus.Timeout :: [DriveStatus.Timeout]) := by
  refine ⟨c4_timeout_amended.1 100 c4Probe "/Volumes/stuck" "smbfs" _ 0 (by decide), ?_,
    c4_timeout_amended.2.2.1 100 c4Probes 100 (by decide),
    ?_⟩
  · have h := c4_timeout_amended.2.1 100 c4Probe "/Volumes/ok" "apfs" [] 100 true
      (by decide) (by rfl)
    simpa using h
  · have h := c4_timeout_amended.2.2.2 100 { time := 1000, result := some DriveStatus.Healthy }
      [{ time := 10, result := some DriveStatus.Healthy }] (by decide) (by decide)
    simpa using h

/-! ## C5: order preservation in bulk enumeration -/

theorem darwinReadyEntry_mountPoint (name fstype : String)
    (res : Except String Bool) :
    (darwinReadyEntry name fstype res).mountPoint = name := by
  unfold darwinReadyEntry
  cases res <;> rfl

theorem processBatch_mountPoints (t : Nat) (probe : String → DarwinProbe) :
    ∀ (batch : List (String × String)) (now : Nat),
      (processBatch t probe batch now).map (fun e => e.mountPoint) =
        batch.map (fun c => c.1) := by
  intro batch
  induction batch with
  | nil => intro _; rfl
  | cons c rest ih =>
    intro now
    obtain ⟨name, fstype⟩ := c
    rw [processBatch]
    split
    · simp [darwinReadyEntry_mountPoint, ih]
    · split
      · simp [darwinReadyEntry_mountPoint, ih]
      · simp [ih]

theorem chunk4_flatten {α : Type} : ∀ l : List α, (chunk4 l).flatten = l
  | [] => rfl
  | [_] => rfl
  | [_, _] => rfl
  | [_, _, _] => rfl
  | a :: b :: c :: d :: rest => by
    rw [chunk4, List.flatten_cons, chunk4_flatten rest]
    rfl

theorem collectDriveResults_length (t : Nat) :
    ∀ (ps : List WinProbe) (elapsed : Nat),
      (collectDriveResults t ps elapsed).length = ps.length := by
  intro ps
  induction ps with
  | nil => intro _; rfl
  | cons p rest ih =>
    intro elapsed
    rw [collectDriveResults]
    repeat' split
    all_goals simp_all [ih]

theorem CheckMultipleDrives_length (t : Nat) (ps : List WinProbe) :
    (CheckMultipleDrives t ps).length = ps.length :=
  collectDriveResults_length t ps 0

/-- C5: bulk enumeration returns exactly one entry per candidate, in the
original mount-table enumeration order, for every assignment of probe
completion times and results (Darwin batch scheduler,
`src/darwin/volume_mount_points.cpp` lines 54-137; Windows collector and
mount-point builder, `src/windows/drive_status.h` lines 174-224 and
`src/windows/volume_mount_points.cpp` lines 79-102). -/
theorem c5_order_preservation :
    (∀ (t : Nat) (probe : String → DarwinProbe) (cs : List (String × String)),
      (darwinProbeAll t probe cs).map (fun e => e.mountPoint) =
        cs.map (fun c => c.1)) ∧
    (∀ (t : Nat) (ps : List WinProbe),
      (CheckMultipleDrives t ps).length = ps.length) ∧
    (∀ (t : Nat) (drives : List WinDrive),
      (winMountPoints t drives).map (fun e => e.mountPoint) =
        (drives.filter (fun d => d.driveType ≠ DRIVE_NO_ROOT_DIR)).map
          (fun d => d.path)) := by
  refine ⟨?_, CheckMultipleDrives_length, ?_⟩
  · intro t probe cs
    unfold darwinProbeAll
    rw [List.map_flatten, List.map_map]
    have h1 : ((chunk4 cs).map
        (List.map (fun e => e.mountPoint) ∘ fun batch => processBatch t probe batch 0)) =
        (chunk4 cs).map (List.map (fun c => c.1)) := by
      apply List.map_congr_left
      intro batch _
      exact processBatch_mountPoints t probe batch 0
    rw [h1, ← List.map_flatten, chunk4_flatten]
  · intro t drives
    unfold winMountPoints
    rw [List.map_map]
    have hlen : (drives.filter (fun d => d.driveType ≠ DRIVE_NO_ROOT_DIR)).length ≤
        (CheckMultipleDrives t
          ((drives.filter (fun d => d.driveType ≠ DRIVE_NO_ROOT_DIR)).map
            (fun d => d.probe))).length := by
      rw [CheckMultipleDrives_length, List.length_map]
    calc ((drives.filter (fun d => d.driveType ≠ DRIVE_NO_ROOT_DIR)).zip
            (CheckMultipleDrives t
              ((drives.filter (fun d => d.driveType ≠ DRIVE_NO_ROOT_DIR)).map
                (fun d => d.probe)))).map _
        = (((drives.filter (fun d => d.driveType ≠ DRIVE_NO_ROOT_DIR)).zip
            (CheckMultipleDrives t
              ((drives.filter (fun d => d.driveType ≠ DRIVE_NO_ROOT_DIR)).map
                (fun d => d.probe)))).map Prod.fst).map (fun d => d.path) := by
          rw [List.map_map]
          rfl
      _ = (drives.filter (fun d => d.driveType ≠ DRIVE_NO_ROOT_DIR)).map
            (fun d => d.path) := by
          rw [List.map_fst_zip _ _ hlen]

/-! ## C6: the status vocabulary -/

/-- C6 counterexample: the Linux worker returns the out-of-vocabulary status
string `"GIO warning: boom"` on a successful call whose GIO enrichment threw
(`src/linux/volume_metadata.cpp` line 109). -/
theorem c6_status_vocabulary_counterexample :
    linuxExecute c3Opts c3Env = Except.ok c3Record ∧
    ¬ (c3Record.status = "ready" ∨ c3Record.status = "healthy" ∨
       c3Record.status = "partial" ∨ c3Record.status = "error") := by
  exact ⟨rfl, by decide⟩

/-- Every exit of `GetDiskArbitrationInfoSafe` leaves one of the three
strings `healthy` / `partial` / `error` in `status`. -/
theorem darwinDAInfo_status (m : VolumeMetadata) (env : DarwinEnv) :
    (darwinDAInfo m env).status = "healthy" ∨
    (darwinDAInfo m env).status = "partial" ∨
    (darwinDAInfo m env).status = "error" := by
  unfold darwinDAInfo
  repeat' split
  all_goals try simp_all
  all_goals (split <;> simp_all)

/-- C6 (amended): the four-value vocabulary and its transition order are the
Darwin worker's model — every record it resolves carries `ready`, `healthy`,
`partial` or `error` — while the Windows worker's `status` is always the
drive-status string, one of `healthy` / `timeout` / `inaccessible` /
`disconnected` / `unknown`, and the Linux worker can overwrite `status` with
`"GIO warning: ..."` / `"Blkid warning: ..."` strings. -/
theorem c6_status_amended :
    (∀ (opts : VolumeMetadataOptions) (env : DarwinEnv) (m : VolumeMetadata),
      darwinExecute opts env = Except.ok m →
      m.status = "ready" ∨ m.status = "healthy" ∨ m.status = "partial" ∨
        m.status = "error") ∧
    (∀ (opts : VolumeMetadataOptions) (env : WinEnv) (m : VolumeMetadata),
      windowsExecute opts env = Except.ok m →
      m.status = "healthy" ∨ m.status = "timeout" ∨ m.status = "inaccessible" ∨
        m.status = "disconnected" ∨ m.status = "unknown") := by
  constructor
  · intro opts env m h
    unfold darwinExecute at h
    simp only [bind, Except.bind, pure, Except.pure, throw, throwThe,
      MonadExceptOf.throw] at h
    repeat' split at h
    all_goals try exact Except.noConfusion h
    all_goals injection h with h2
    all_goals subst h2
    all_goals exact Or.inr (darwinDAInfo_status _ env)
  · intro opts env m h
    have hvocab : ∀ s : DriveStatus, DriveStatusToString s = "healthy" ∨
        DriveStatusToString s = "timeout" ∨ DriveStatusToString s = "inaccessible" ∨
        DriveStatusToString s = "disconnected" ∨ DriveStatusToString s = "unknown" := by
      intro s
      cases s <;> simp [DriveStatusToString]
    have hst : m.status = DriveStatusToString env.driveStatus := by
      unfold windowsExecute at h
      simp only [bind, Except.bind, pure, Except.pure] at h
      repeat' split at h
      all_goals try exact Except.noConfusion h
      all_goals injection h with h2
      all_goals subst h2
      all_goals rfl
    rw [hst]
    exact hvocab env.driveStatus

def c6DarwinRecord : VolumeMetadata :=
  { size := 10, used := 5, available := 2, fstype := "apfs",
    mountFrom := "/dev/disk1s1", mountName := "/mnt/data",
    status := "partial", error := "Failed to create DA session" }

def c6WinEnv : WinEnv :=
  { driveStatus := DriveStatus.Timeout
    isSystemVolume := false
    volInfo := Except.ok none
    guidRes := Except.error "GetVolumeNameForVolumeMountPoint"
    diskInfo := Except.ok none
    driveRemote := false
    wnetRes := none }

def c6WinRecord : VolumeMetadata := { status := "timeout" }

/-- Witness for `c6_status_amended`: a concrete Darwin run resolving with
`partial`, and a concrete Windows run resolving with `timeout`. -/
theorem c6_status_amended_witness :
    (c6DarwinRecord.status = "ready" ∨ c6DarwinRecord.status = "healthy" ∨
      c6DarwinRecord.status = "partial" ∨ c6DarwinRecord.status = "error") ∧
    (c6WinRecord.status = "healthy" ∨ c6WinRecord.status = "timeout" ∨
      c6WinRecord.status = "inaccessible" ∨ c6WinRecord.status = "disconnected" ∨
      c6WinRecord.status = "unknown") :=
  ⟨c6_status_amended.1 { mountPoint := "/mnt/data" } c3DarwinEnv c6DarwinRecord rfl,
   c6_status_amended.2 { mountPoint := "C:\\" } c6WinEnv c6WinRecord rfl⟩

/-! ## C7: canonicalization versus pattern matching -/

/-- C7 counterexample: `SecurityUtils::IsPathSecure`
(`src/windows/security_utils.h` lines 40-48) rejects a path *by substring
pattern matching on `..`* — the same path with the `..` component renamed is
accepted, and no canonicalization is involved in the decision. -/
theorem c7_pattern_matching_counterexample :
    IsPathSecure "C:\\a\\..\\b".toList = false ∧
    IsPathSecure "C:\\a\\zz\\b".toList = true := by
  refine ⟨by rfl, by rfl⟩

/-- C7 (amended): the POSIX validator (`src/common/path_security.h`) rejects
only empty / null-byte inputs and otherwise trusts `realpath`, so two paths
with the same canonical resolution validate to the same canonical result
(`validate("/tmp/../tmp/x")` = `validate("/tmp/x")`); but the Windows-side
`SecurityUtils::IsPathSecure` does reject paths by `..` substring pattern
matching, so pattern-based rejection is used in that validator. -/
theorem c7_canonicalization_amended :
    (∀ (rp : String → Except Nat String) (strerror : Nat → String)
        (p q c : String) (b : Bool),
      ¬ p = "" → ¬ q = "" →
      p.toList.contains (Char.ofNat 0) = false →
      q.toList.contains (Char.ofNat 0) = false →
      rp p = Except.ok c → rp q = Except.ok c →
      (ValidateAndCanonicalizePath rp strerror p b).result = Except.ok c ∧
      (ValidateAndCanonicalizePath rp strerror p b).result =
        (ValidateAndCanonicalizePath rp strerror q b).result) ∧
    IsPathSecure "C:\\a\\..\\b".toList = false := by
  constructor
  · intro rp strerror p q c b hp hq hp0 hq0 hrp hrq
    have hone : ∀ r : String, ¬ r = "" → r.toList.contains (Char.ofNat 0) = false →
        rp r = Except.ok c →
        (ValidateAndCanonicalizePath rp strerror r b).result = Except.ok c := by
      intro r hr hr0 hrr
      unfold ValidateAndCanonicalizePath
      rw [if_neg hr, if_neg (by rw [hr0]; simp), hrr]
    have h1 := hone p hp hp0 hrp
    have h2 := hone q hq hq0 hrq
    exact ⟨h1, by rw [h1, h2]⟩
  · rfl

/-- The `realpath` oracle of the spec scenario: both spellings of the path
resolve to the canonical `/tmp/x`. -/
def c7Realpath : String → Except Nat String :=
  fun s =>
    if s = "/tmp/../tmp/x" ∨ s = "/tmp/x" then Except.ok "/tmp/x"
    else Except.error ENOENT

/-- Witness for `c7_canonicalization_amended`: the spec's
`/tmp/../tmp/x` versus `/tmp/x` scenario. -/
theorem c7_canonicalization_amended_witness :
    (ValidateAndCanonicalizePath c7Realpath (fun _ => "No such file or directory")
        "/tmp/../tmp/x" false).result = Except.ok "/tmp/x" ∧
    (ValidateAndCanonicalizePath c7Realpath (fun _ => "No such file or directory")
        "/tmp/../tmp/x" false).result =
      (ValidateAndCanonicalizePath c7Realpath (fun _ => "No such file or directory")
        "/tmp/x" false).result :=
  c7_canonicalization_amended.1 c7Realpath (fun _ => "No such file or directory")
    "/tmp/../tmp/x" "/tmp/x" "/tmp/x" false
    (by decide) (by decide) (by rfl) (by rfl) (by rfl) (by rfl)

/-! ## C8: empty and null-byte paths -/

/-- C8: for either value of `allow_nonexistent`, an empty path or a path with
an embedded null byte makes `ValidateAndCanonicalizePath`
(`src/common/path_security.h` lines 42-54) fail with the corresponding
`InvalidPath` message before any `realpath` syscall is issued. -/
theorem c8_invalid_path_short_circuit (rp : String → Except Nat String)
    (strerror : Nat → String) (allowNonexistent : Bool) (p : String)
    (hnull : p.toList.contains (Char.ofNat 0) = true) :
    (ValidateAndCanonicalizePath rp strerror "" allowNonexistent).result =
      Except.error "Empty path provided" ∧
    (ValidateAndCanonicalizePath rp strerror "" allowNonexistent).realpathCalls = 0 ∧
    (ValidateAndCanonicalizePath rp strerror p allowNonexistent).result =
      Except.error "Invalid path containing null byte" ∧
    (ValidateAndCanonicalizePath rp strerror p allowNonexistent).realpathCalls = 0 := by
  have hp : ¬ p = "" := by
    intro he
    subst he
    simp at hnull
  refine ⟨rfl, rfl, ?_, ?_⟩ <;>
    · unfold ValidateAndCanonicalizePath
      rw [if_neg hp, if_pos hnull]

/-- Witness for `c8_invalid_path_short_circuit` at the concrete path
`"a\0b"` against an oracle that would resolve anything. -/
theorem c8_invalid_path_short_circuit_witness :
    (ValidateAndCanonicalizePath (fun s => Except.ok s) (fun _ => "err") ""
      true).result = Except.error "Empty path provided" ∧
    (ValidateAndCanonicalizePath (fun s => Except.ok s) (fun _ => "err") ""
      true).realpathCalls = 0 ∧
    (ValidateAndCanonicalizePath (fun s => Except.ok s) (fun _ => "err")
      "a\x00b" true).result = Except.error "Invalid path containing null byte" ∧
    (ValidateAndCanonicalizePath (fun s => Except.ok s) (fun _ => "err")
      "a\x00b" true).realpathCalls = 0 :=
  c8_invalid_path_short_circuit (fun s => Except.ok s) (fun _ => "err") true
    "a\x00b" (by rfl)

/-! ## C9: the skipNetworkVolumes option -/

/-- C9: the `skipNetworkVolumes` option is parsed
(`src/common/volume_metadata.h` lines 30-33) but never read by any worker:
flipping it changes nothing in either the Linux or the Darwin execution, for
every environment (the Darwin remote-filesystem short-circuit at
`src/darwin/volume_metadata.cpp` lines 202-207 fires unconditionally on the
filesystem type). -/
theorem c9_skip_network_volumes_dead :
    (∀ (opts : VolumeMetadataOptions) (env : LinuxEnv) (b : Bool),
      linuxExecute { opts with skipNetworkVolumes := b } env =
        linuxExecute opts env) ∧
    (∀ (opts : VolumeMetadataOptions) (env : DarwinEnv) (b : Bool),
      darwinExecute { opts with skipNetworkVolumes := b } env =
        darwinExecute opts env) := by
  exact ⟨fun _ _ _ => rfl, fun _ _ _ => rfl⟩

/-! ## C10: the hidden-flag computation -/

/-- C10: `SetHiddenWorker::Execute` (`src/darwin/hidden.cpp` lines 171-176)
computes the new flag word as `st_flags | UF_HIDDEN` or
`st_flags & ~UF_HIDDEN`: bit 15 becomes the requested value, every other bit
of the 32-bit flag word is preserved, and the operation is idempotent. -/
theorem c10_hidden_flag_frame (hidden : Bool) (stFlags : Nat)
    (hlt : stFlags < 2 ^ 32) :
    (setHiddenFlags hidden stFlags).testBit 15 = hidden ∧
    (∀ i : Nat, ¬ i = 15 →
      (setHiddenFlags hidden stFlags).testBit i = stFlags.testBit i) ∧
    setHiddenFlags hidden (setHiddenFlags hidden stFlags) =
      setHiddenFlags hidden stFlags := by
  have hUF : UF_HIDDEN = 2 ^ 15 := by norm_num [UF_HIDDEN]
  have hMask : uint32Mask = 2 ^ 32 - 1 := rfl
  cases hidden with
  | true =>
    unfold setHiddenFlags
    simp only [if_pos]
    refine ⟨?_, ?_, ?_⟩
    · rw [hUF, Nat.testBit_or, Nat.testBit_two_pow_self, Bool.or_true]
    · intro i hi
      rw [hUF, Nat.testBit_or, Nat.testBit_two_pow_of_ne (by omega), Bool.or_false]
    · apply Nat.eq_of_testBit_eq
      intro i
      simp only [Nat.testBit_or, Bool.or_assoc, Bool.or_self]
  | false =>
    unfold setHiddenFlags
    simp only [Bool.false_eq_true, if_neg, if_false]
    refine ⟨?_, ?_, ?_⟩
    · rw [hUF, hMask, Nat.testBit_and, Nat.testBit_xor,
        Nat.testBit_two_pow_sub_one, Nat.testBit_two_pow_self]
      simp
    · intro i hi
      rcases Nat.lt_or_ge i 32 with h32 | h32
      · rw [hUF, hMask, Nat.testBit_and, Nat.testBit_xor,
          Nat.testBit_two_pow_sub_one, Nat.testBit_two_pow_of_ne (by omega)]
        simp [h32]
      · have hx : stFlags.testBit i = false :=
          Nat.testBit_lt_two_pow (lt_of_lt_of_le hlt (Nat.pow_le_pow_right (by norm_num) h32))
        rw [Nat.testBit_and, hx]
        simp
    · apply Nat.eq_of_testBit_eq
      intro i
      simp only [Nat.testBit_and, Bool.and_assoc, Bool.and_self]

/-- Witness for `c10_hidden_flag_frame` at the concrete 32-bit flag word
`0x00002755` (several unrelated BSD flags set), both hiding and unhiding. -/
theorem c10_hidden_flag_frame_witness :
    ((setHiddenFlags true 0x2755).testBit 15 = true ∧
      (∀ i : Nat, ¬ i = 15 →
        (setHiddenFlags true 0x2755).testBit i = (0x2755 : Nat).testBit i) ∧
      setHiddenFlags true (setHiddenFlags true 0x2755) =
        setHiddenFlags true 0x2755) ∧
    ((setHiddenFlags false 0xA755).testBit 15 = false ∧
      (∀ i : Nat, ¬ i = 15 →
        (setHiddenFlags false 0xA755).testBit i = (0xA755 : Nat).testBit i) ∧
      setHiddenFlags false (setHiddenFlags false 0xA755) =
        setHiddenFlags false 0xA755) :=
  ⟨c10_hidden_flag_frame true 0x2755 (by norm_num),
   c10_hidden_flag_frame false 0xA755 (by norm_num)⟩

end FSMeta
